import Mathlib

/-!
Verification development for the bcachefs filesystem-instance lifecycle
controller (libbcachefs/super.c). The definitions below are shallow
embeddings of the C functions of that file: pure data is translated to
Lean structures, the sequential body of each C function becomes a Lean
function on an explicit filesystem state, and calls into external
collaborators (allocator start, GC thread start, ...) that can fail are
modelled by explicit success/failure oracles. Machine integers that can
overflow are modelled as Nat with an explicit reduction modulo 2 ^ 64.
-/

/-- Runtime state of a filesystem instance, enum bch_fs_state. -/
inductive BchFsState where
  | starting
  | ro
  | rw
  | stopping
deriving DecidableEq, Repr

/-- Persisted membership state of one device, enum bch_member_state. -/
inductive BchMemberState where
  | rw
  | ro
  | failed
  | spare
deriving DecidableEq, Repr

/-- Runtime record for one member device (struct bch_dev), restricted to the
fields the lifecycle controller reads and writes: the slot index, the
membership state from the superblock, and the running/registered flags of
the per-device background machinery. -/
structure BchDev where
  devIdx : Nat
  miState : BchMemberState
  allocatorRunning : Bool
  movinggcRunning : Bool
  inAllocatorPool : Bool
deriving DecidableEq, Repr

/-- Filesystem instance (struct bch_fs), restricted to the fields that the
RO/RW transition controller of super.c reads and writes. The journal is
represented by its running flag and its sticky error state (set by
bch2_journal_halt and observed through bch2_journal_error); the superblock
by its CLEAN bit and a count of bch2_write_super calls; the asynchronous
read-only work item by a pending flag plus a count of actual enqueues. -/
structure BchFs where
  state : BchFsState
  flagError : Bool
  flagEmergencyRo : Bool
  flagWriteDisableComplete : Bool
  devs : List BchDev
  gcThreadRunning : Bool
  tieringRunning : Bool
  journalRunning : Bool
  journalError : Bool
  sbClean : Bool
  sbWriteCount : Nat
  writesKilled : Bool
  readOnlyWorkPending : Bool
  readOnlyWorkEnqueued : Nat
deriving DecidableEq, Repr

/-- Observable teardown actions of the RW to RO path, in the order the code
performs them; used to state the strict ordering of __bch2_fs_read_only. -/
inductive ROEvent where
  | tieringStop
  | movinggcStop (d : Nat)
  | gcThreadStop
  | journalFlushPins
  | btreeVerifyFlushed
  | allocatorStop (d : Nat)
  | journalStop
  | allocatorRemove (d : Nat)
deriving DecidableEq, Repr

/-- Embeds __bch2_fs_read_only (super.c): stop tiering, stop every device's
moving-GC worker, stop the mark-and-sweep GC thread, flush all journal pins
(while allocators still run), verify btree flush when the journal has no
error, stop every device's allocator, stop the journal, and finally remove
every device's reserve pools from the allocation pool. Returns the new
state together with the ordered trace of teardown events. The member-device
list itself is not mutated by any of these steps, so the per-device event
lists are drawn from the incoming device list. -/
def __bch2_fs_read_only (c : BchFs) : BchFs × List ROEvent :=
  let c1 := { c with tieringRunning := false }
  let c2 := { c1 with devs := c1.devs.map fun d : BchDev => { d with movinggcRunning := false } }
  let c3 := { c2 with gcThreadRunning := false }
  let c4 := { c3 with devs := c3.devs.map fun d : BchDev => { d with allocatorRunning := false } }
  let c5 := { c4 with journalRunning := false }
  let c6 := { c5 with devs := c5.devs.map fun d : BchDev => { d with inAllocatorPool := false } }
  (c6,
    [ROEvent.tieringStop] ++
    (c.devs.map fun d => ROEvent.movinggcStop d.devIdx) ++
    [ROEvent.gcThreadStop] ++
    [ROEvent.journalFlushPins] ++
    (if c.journalError then [] else [ROEvent.btreeVerifyFlushed]) ++
    (c.devs.map fun d => ROEvent.allocatorStop d.devIdx) ++
    [ROEvent.journalStop] ++
    (c.devs.map fun d => ROEvent.allocatorRemove d.devIdx))

/-- Reserve sizes computed by bch2_dev_alloc (super.c) from the device's
bucket count. The C arithmetic is on size_t, so the multiplication is
reduced modulo 2 ^ 64. -/
structure DevReserves where
  movinggcReserve : Nat
  reserveNoneSize : Nat
  freeIncReserve : Nat
  heapSize : Nat
deriving DecidableEq, Repr

/-- Size of the size_t / u64 value space. -/
def U64limit : Nat := 2 ^ 64

/-- Embeds the reserve-size computation of bch2_dev_alloc (super.c):
movinggc_reserve = max(16, nbuckets >> 7), reserve_none =
max(4, nbuckets >> 9), free_inc_reserve = movinggc_reserve / 2,
heap_size = movinggc_reserve * 8. -/
def bch2_dev_alloc_reserves (nbuckets : Nat) : DevReserves :=
  let movinggc_reserve := max 16 (nbuckets >>> 7)
  let reserve_none := max 4 (nbuckets >>> 9)
  let free_inc_reserve := movinggc_reserve / 2
  let heap_size := (movinggc_reserve * 8) % U64limit
  { movinggcReserve := movinggc_reserve
    reserveNoneSize := reserve_none
    freeIncReserve := free_inc_reserve
    heapSize := heap_size }

/-- The claim C9, stated over the embedded computation: the moving-GC
reserve is max(16, n / 128), the general reserve is max(4, n / 512), the
free_inc reserve is half the moving-GC reserve and strictly smaller than
it, and the scratch heap is 8 times the moving-GC reserve. -/
theorem c9_dev_alloc_reserves (n : Nat) (hn : n < U64limit) :
    (bch2_dev_alloc_reserves n).movinggcReserve = max 16 (n / 128) ∧
    (bch2_dev_alloc_reserves n).reserveNoneSize = max 4 (n / 512) ∧
    (bch2_dev_alloc_reserves n).freeIncReserve =
      (bch2_dev_alloc_reserves n).movinggcReserve / 2 ∧
    (bch2_dev_alloc_reserves n).freeIncReserve <
      (bch2_dev_alloc_reserves n).movinggcReserve ∧
    (bch2_dev_alloc_reserves n).heapSize =
      8 * (bch2_dev_alloc_reserves n).movinggcReserve := by
  have h128 : n >>> 7 = n / 128 := Nat.shiftRight_eq_div_pow n 7
  have h512 : n >>> 9 = n / 512 := Nat.shiftRight_eq_div_pow n 9
  have hmgpos : 0 < max 16 (n >>> 7) := lt_of_lt_of_le (by norm_num) (le_max_left _ _)
  have hmgbound : max 16 (n >>> 7) * 8 < U64limit := by
    have hdiv : n >>> 7 ≤ 2 ^ 57 := by
      rw [h128]
      have : n / 128 < 2 ^ 57 := by
        apply Nat.div_lt_of_lt_mul
        calc n < U64limit := hn
        _ = 2 ^ 57 * 128 := by norm_num [U64limit]
      exact le_of_lt this
    have : max 16 (n >>> 7) ≤ 2 ^ 57 := by
      apply max_le (by norm_num) hdiv
    calc max 16 (n >>> 7) * 8 ≤ 2 ^ 57 * 8 := Nat.mul_le_mul_right 8 this
    _ < U64limit := by norm_num [U64limit]
  refine ⟨by simp [bch2_dev_alloc_reserves, h128], by simp [bch2_dev_alloc_reserves, h512], rfl, ?_, ?_⟩
  · show max 16 (n >>> 7) / 2 < max 16 (n >>> 7)
    exact Nat.div_lt_self hmgpos (by norm_num)
  · show (max 16 (n >>> 7) * 8) % U64limit = 8 * max 16 (n >>> 7)
    rw [Nat.mod_eq_of_lt hmgbound, Nat.mul_comm]

/-- Witness for c9_dev_alloc_reserves at a concrete bucket count. -/
theorem c9_dev_alloc_reserves_witness :
    (bch2_dev_alloc_reserves 100000).movinggcReserve = max 16 (100000 / 128) ∧
    (bch2_dev_alloc_reserves 100000).reserveNoneSize = max 4 (100000 / 512) ∧
    (bch2_dev_alloc_reserves 100000).freeIncReserve =
      (bch2_dev_alloc_reserves 100000).movinggcReserve / 2 ∧
    (bch2_dev_alloc_reserves 100000).freeIncReserve <
      (bch2_dev_alloc_reserves 100000).movinggcReserve ∧
    (bch2_dev_alloc_reserves 100000).heapSize =
      8 * (bch2_dev_alloc_reserves 100000).movinggcReserve :=
  c9_dev_alloc_reserves 100000 (by norm_num [U64limit])

/-- Success/failure outcomes of the external start calls made by
bch2_fs_read_write: per-device allocator start, btree GC thread start,
per-device moving-GC start, and tiering start. -/
structure StartOracle where
  allocStartOk : Nat → Bool
  gcStartOk : Bool
  movinggcStartOk : Nat → Bool
  tieringStartOk : Bool

/-- Embeds the first for_each_rw_member loop of bch2_fs_read_write: add
every membership-RW device to the shared allocation pool
(bch2_dev_allocator_add). -/
def bch2_dev_allocator_add_all (c : BchFs) : BchFs :=
  { c with devs := c.devs.map fun d : BchDev =>
      if d.miState = BchMemberState.rw then { d with inAllocatorPool := true } else d }

/-- Embeds the allocator-start loop of bch2_fs_read_write: walk the member
list in order, start the allocator of each membership-RW device, and abort
on the first failure, leaving earlier allocators running. Returns the
updated device list and whether the whole loop succeeded. -/
def startAllocatorsLoop (o : StartOracle) : List BchDev → List BchDev × Bool
  | [] => ([], true)
  | d :: ds =>
    if d.miState = BchMemberState.rw then
      if o.allocStartOk d.devIdx then
        let r := startAllocatorsLoop o ds
        ({ d with allocatorRunning := true } :: r.1, r.2)
      else (d :: ds, false)
    else
      let r := startAllocatorsLoop o ds
      (d :: r.1, r.2)

/-- Embeds the moving-GC start loop of bch2_fs_read_write, in the same
abort-on-first-failure style as the allocator loop. -/
def startMovinggcLoop (o : StartOracle) : List BchDev → List BchDev × Bool
  | [] => ([], true)
  | d :: ds =>
    if d.miState = BchMemberState.rw then
      if o.movinggcStartOk d.devIdx then
        let r := startMovinggcLoop o ds
        ({ d with movinggcRunning := true } :: r.1, r.2)
      else (d :: ds, false)
    else
      let r := startMovinggcLoop o ds
      (d :: r.1, r.2)

/-- Embeds bch2_fs_read_write (super.c). The function returns early
(successfully, with a null error) unless the state is STARTING or RO; it
then adds all RW devices to the allocation pool, starts the allocators,
the btree GC thread, the moving-GC workers and the tiering thread, and on
any failure runs the full __bch2_fs_read_only teardown and returns the
descriptive error string of the failed step. On success it reinitializes
the write-admission gate (unless still STARTING) and sets the state to RW.
The C code performs no check of the BCH_FS_ERROR flag on this path. -/
def bch2_fs_read_write (c : BchFs) (o : StartOracle) : BchFs × Option String :=
  if c.state ≠ BchFsState.starting ∧ c.state ≠ BchFsState.ro then (c, none)
  else
    let c0 := bch2_dev_allocator_add_all c
    match startAllocatorsLoop o c0.devs with
    | (devs1, false) =>
      ((__bch2_fs_read_only { c0 with devs := devs1 }).1,
       some "error starting allocator thread")
    | (devs1, true) =>
      let c1 := { c0 with devs := devs1 }
      if o.gcStartOk = false then
        ((__bch2_fs_read_only c1).1, some "error starting btree GC thread")
      else
        let c2 := { c1 with gcThreadRunning := true }
        match startMovinggcLoop o c2.devs with
        | (devs2, false) =>
          ((__bch2_fs_read_only { c2 with devs := devs2 }).1,
           some "error starting moving GC thread")
        | (devs2, true) =>
          let c3 := { c2 with devs := devs2 }
          if o.tieringStartOk = false then
            ((__bch2_fs_read_only c3).1, some "error starting tiering thread")
          else
            let c4 := { c3 with tieringRunning := true }
            let c5 := if c4.state ≠ BchFsState.starting
                      then { c4 with writesKilled := false } else c4
            ({ c5 with state := BchFsState.rw }, none)

/-- All background workers of the RW machinery are stopped and the
allocation pool holds no device reserves: the post-state of a complete
RW to RO teardown. -/
def teardownDone (c : BchFs) : Prop :=
  c.tieringRunning = false ∧ c.gcThreadRunning = false ∧
  ∀ d ∈ c.devs, d.allocatorRunning = false ∧ d.movinggcRunning = false ∧
    d.inAllocatorPool = false

/-- The __bch2_fs_read_only teardown leaves the state field untouched and
stops every background worker of every device. -/
theorem read_only_teardown_spec (c : BchFs) :
    (__bch2_fs_read_only c).1.state = c.state ∧
    (__bch2_fs_read_only c).1.flagError = c.flagError ∧
    (__bch2_fs_read_only c).1.journalError = c.journalError ∧
    (__bch2_fs_read_only c).1.sbClean = c.sbClean ∧
    (__bch2_fs_read_only c).1.sbWriteCount = c.sbWriteCount ∧
    teardownDone (__bch2_fs_read_only c).1 := by
  refine ⟨rfl, rfl, rfl, rfl, rfl, rfl, rfl, ?_⟩
  intro d hd
  simp only [__bch2_fs_read_only, List.map_map, List.mem_map, Function.comp] at hd
  obtain ⟨d0, _, rfl⟩ := hd
  exact ⟨rfl, rfl, rfl⟩

/-- When every per-device allocator start succeeds the allocator-start loop
of bch2_fs_read_write succeeds as a whole. -/
theorem startAllocatorsLoop_all_ok (o : StartOracle)
    (h : ∀ n, o.allocStartOk n = true) :
    ∀ l : List BchDev, (startAllocatorsLoop o l).2 = true := by
  intro l
  induction l with
  | nil => rfl
  | cons d ds ih =>
    unfold startAllocatorsLoop
    by_cases hd : d.miState = BchMemberState.rw
    · simp [hd, h d.devIdx, ih]
    · simp [hd, ih]

/-- When every per-device moving-GC start succeeds the moving-GC start loop
of bch2_fs_read_write succeeds as a whole. -/
theorem startMovinggcLoop_all_ok (o : StartOracle)
    (h : ∀ n, o.movinggcStartOk n = true) :
    ∀ l : List BchDev, (startMovinggcLoop o l).2 = true := by
  intro l
  induction l with
  | nil => rfl
  | cons d ds ih =>
    unfold startMovinggcLoop
    by_cases hd : d.miState = BchMemberState.rw
    · simp [hd, h d.devIdx, ih]
    · simp [hd, ih]

/-- The claim C3: whenever bch2_fs_read_write returns a (non-null) error
string, the full __bch2_fs_read_only teardown has run: the state field is
left at its prior value and no background worker of any device is left
running, nor any device left in the allocation pool. -/
theorem c3_rw_failure_rollback (c : BchFs) (o : StartOracle) (e : String)
    (h : (bch2_fs_read_write c o).2 = some e) :
    (bch2_fs_read_write c o).1.state = c.state ∧
    teardownDone (bch2_fs_read_write c o).1 := by
  cases hr : bch2_fs_read_write c o with
  | mk a b =>
    rw [hr] at h
    replace h : b = some e := h
    show a.state = c.state ∧ teardownDone a
    simp only [bch2_fs_read_write] at hr
    split at hr
    · injection hr with h1 h2
      subst h1; subst h2
      exact Option.noConfusion h
    · split at hr
      · injection hr with h1 h2
        subst h1
        exact ⟨(read_only_teardown_spec _).1, (read_only_teardown_spec _).2.2.2.2.2⟩
      · split at hr
        · injection hr with h1 h2
          subst h1
          exact ⟨(read_only_teardown_spec _).1, (read_only_teardown_spec _).2.2.2.2.2⟩
        · split at hr
          · injection hr with h1 h2
            subst h1
            exact ⟨(read_only_teardown_spec _).1, (read_only_teardown_spec _).2.2.2.2.2⟩
          · split at hr
            · injection hr with h1 h2
              subst h1
              exact ⟨(read_only_teardown_spec _).1, (read_only_teardown_spec _).2.2.2.2.2⟩
            · injection hr with h1 h2
              subst h1; subst h2
              exact Option.noConfusion h

/-- Oracle in which every external start call succeeds. -/
def allOkOracle : StartOracle :=
  { allocStartOk := fun _ => true
    gcStartOk := true
    movinggcStartOk := fun _ => true
    tieringStartOk := true }

/-- Oracle in which the btree GC thread start fails and all other start
calls succeed. -/
def gcFailOracle : StartOracle :=
  { allocStartOk := fun _ => true
    gcStartOk := false
    movinggcStartOk := fun _ => true
    tieringStartOk := true }

/-- A concrete read-only filesystem instance with one membership-RW device
and no background worker running. -/
def roFsOneDev : BchFs :=
  { state := BchFsState.ro
    flagError := false
    flagEmergencyRo := false
    flagWriteDisableComplete := false
    devs := [{ devIdx := 0, miState := BchMemberState.rw,
               allocatorRunning := false, movinggcRunning := false,
               inAllocatorPool := false }]
    gcThreadRunning := false
    tieringRunning := false
    journalRunning := true
    journalError := false
    sbClean := true
    sbWriteCount := 0
    writesKilled := true
    readOnlyWorkPending := false
    readOnlyWorkEnqueued := 0 }

/-- Counterexample to the claim C2 as stated: on an instance whose ERROR
flag is set and whose state is RO, bch2_fs_read_write still transitions the
state to RW when every worker start succeeds, because the code checks only
the state field, never the BCH_FS_ERROR flag. -/
theorem c2_error_flag_counterexample :
    ({ roFsOneDev with flagError := true } : BchFs).flagError = true ∧
    ({ roFsOneDev with flagError := true } : BchFs).state = BchFsState.ro ∧
    (bch2_fs_read_write { roFsOneDev with flagError := true }
      allOkOracle).1.state = BchFsState.rw ∧
    (bch2_fs_read_write { roFsOneDev with flagError := true }
      allOkOracle).2 = none := by
  refine ⟨rfl, rfl, ?_, ?_⟩ <;> rfl

/-- The claim C2 amended: bch2_fs_read_write checks only the state field
(STARTING or RO), not the ERROR flag; from such a state, when every worker
start succeeds, the call transitions the instance to RW and returns no
error regardless of the value of the ERROR flag. -/
theorem c2_amended_rw_ignores_error_flag (c : BchFs) (o : StartOracle)
    (hstate : c.state = BchFsState.starting ∨ c.state = BchFsState.ro)
    (ha : ∀ n, o.allocStartOk n = true)
    (hgc : o.gcStartOk = true)
    (hm : ∀ n, o.movinggcStartOk n = true)
    (ht : o.tieringStartOk = true) :
    (bch2_fs_read_write c o).1.state = BchFsState.rw ∧
    (bch2_fs_read_write c o).2 = none := by
  cases hr : bch2_fs_read_write c o with
  | mk a b =>
    show a.state = BchFsState.rw ∧ b = none
    simp only [bch2_fs_read_write] at hr
    split at hr
    · rename_i hs
      rcases hstate with h | h <;> simp [h] at hs
    · split at hr
      · rename_i devs1 heq
        have hok := startAllocatorsLoop_all_ok o ha (bch2_dev_allocator_add_all c).devs
        rw [heq] at hok
        exact Bool.noConfusion hok
      · split at hr
        · rename_i hgcbad
          rw [hgc] at hgcbad
          exact Bool.noConfusion hgcbad
        · split at hr
          · rename_i devs2 heq2
            exact absurd (congrArg Prod.snd heq2)
              (by simp [startMovinggcLoop_all_ok o hm])
          · split at hr
            · rename_i htbad
              rw [ht] at htbad
              exact Bool.noConfusion htbad
            · injection hr with h1 h2
              subst h1; subst h2
              exact ⟨rfl, rfl⟩

/-- Witness for c2_amended_rw_ignores_error_flag: a concrete RO instance
with ERROR set which still reaches RW. -/
theorem c2_amended_witness :
    (bch2_fs_read_write { roFsOneDev with flagError := true }
      allOkOracle).1.state = BchFsState.rw ∧
    (bch2_fs_read_write { roFsOneDev with flagError := true }
      allOkOracle).2 = none :=
  c2_amended_rw_ignores_error_flag { roFsOneDev with flagError := true }
    allOkOracle (Or.inr rfl) (fun _ => rfl) rfl (fun _ => rfl) rfl

/-- Witness for c3_rw_failure_rollback: a concrete instance on which the
btree GC thread start fails. -/
theorem c3_rw_failure_rollback_witness :
    (bch2_fs_read_write roFsOneDev gcFailOracle).1.state = roFsOneDev.state ∧
    teardownDone (bch2_fs_read_write roFsOneDev gcFailOracle).1 :=
  c3_rw_failure_rollback roFsOneDev gcFailOracle
    "error starting btree GC thread" rfl

/-- Embeds bch2_fs_read_only (super.c). The call returns immediately when
the state is neither STARTING nor RW, and also when the BCH_FS_ERROR flag
is set. Otherwise it kills the write-admission gate, waits for outstanding
writes to drain (modelled sequentially: the percpu-ref callback sets
WRITE_DISABLE_COMPLETE, which the function clears again after the
teardown), runs the __bch2_fs_read_only teardown, then - only when the
journal has no error and BCH_FS_ERROR is still clear - sets the CLEAN bit
in the superblock and durably writes it, and finally sets the state RO. -/
def bch2_fs_read_only (c : BchFs) : BchFs :=
  if c.state ≠ BchFsState.starting ∧ c.state ≠ BchFsState.rw then c
  else if c.flagError then c
  else
    let c1 := { c with writesKilled := true }
    let c2 := { c1 with flagWriteDisableComplete := true }
    let c3 := (__bch2_fs_read_only c2).1
    let c4 := { c3 with flagWriteDisableComplete := false }
    let c5 := if c4.journalError = false ∧ c4.flagError = false
              then { c4 with sbClean := true, sbWriteCount := c4.sbWriteCount + 1 }
              else c4
    { c5 with state := BchFsState.ro }

/-- The claim C7: calling bch2_fs_read_only on an instance whose state is
already RO is a complete no-op: the returned instance, including its state
field, flags and superblock image, is the input unchanged. -/
theorem c7_read_only_idempotent (c : BchFs) (h : c.state = BchFsState.ro) :
    bch2_fs_read_only c = c := by
  unfold bch2_fs_read_only
  rw [if_pos]
  constructor <;> simp [h]

/-- Witness for c7_read_only_idempotent at a concrete RO instance. -/
theorem c7_read_only_idempotent_witness :
    bch2_fs_read_only roFsOneDev = roFsOneDev :=
  c7_read_only_idempotent roFsOneDev rfl

/-- A concrete RW instance with a journal error recorded but the ERROR flag
clear, superblock not yet marked clean. -/
def rwJournalErrFs : BchFs :=
  { roFsOneDev with
      state := BchFsState.rw
      journalError := true
      sbClean := false }

/-- A concrete RW instance with no error anywhere, superblock not yet
marked clean. -/
def rwNoErrFs : BchFs :=
  { roFsOneDev with
      state := BchFsState.rw
      sbClean := false }

/-- Counterexample to the claim C6 as stated: an RW instance with the ERROR
flag clear but a journal error recorded completes the teardown and ends in
state RO, yet the superblock is not marked clean and not written, because
the code additionally requires bch2_journal_error to report no error. -/
theorem c6_clean_sb_counterexample :
    rwJournalErrFs.flagError = false ∧
    (bch2_fs_read_only rwJournalErrFs).state = BchFsState.ro ∧
    (bch2_fs_read_only rwJournalErrFs).sbClean = false ∧
    (bch2_fs_read_only rwJournalErrFs).sbWriteCount = 0 := by
  refine ⟨rfl, ?_, ?_, ?_⟩ <;> rfl

/-- The claim C6 amended: after the teardown runs in bch2_fs_read_only
(state STARTING or RW, ERROR flag clear), the call always ends with the
state set to RO; the superblock is marked clean and durably written exactly
when, in addition to the ERROR flag being clear, the journal reports no
error - otherwise the superblock is left untouched. -/
theorem c6_amended_read_only_clean (c : BchFs)
    (hstate : c.state = BchFsState.starting ∨ c.state = BchFsState.rw)
    (herr : c.flagError = false) :
    (bch2_fs_read_only c).state = BchFsState.ro ∧
    (c.journalError = false →
      (bch2_fs_read_only c).sbClean = true ∧
      (bch2_fs_read_only c).sbWriteCount = c.sbWriteCount + 1) ∧
    (c.journalError = true →
      (bch2_fs_read_only c).sbClean = c.sbClean ∧
      (bch2_fs_read_only c).sbWriteCount = c.sbWriteCount) := by
  have hcond : ¬(c.state ≠ BchFsState.starting ∧ c.state ≠ BchFsState.rw) := by
    rcases hstate with h | h <;> simp [h]
  cases hj : c.journalError with
  | false =>
    refine ⟨?_, fun _ => ⟨?_, ?_⟩,
        fun hbad => Bool.noConfusion hbad⟩ <;>
      simp [bch2_fs_read_only, __bch2_fs_read_only, hcond, herr, hj]
  | true =>
    refine ⟨?_, fun hbad => Bool.noConfusion hbad,
        fun _ => ⟨?_, ?_⟩⟩ <;>
      simp [bch2_fs_read_only, __bch2_fs_read_only, hcond, herr, hj]

/-- Witness for c6_amended_read_only_clean: a concrete RW instance with no
error anywhere ends RO with a freshly written clean superblock. -/
theorem c6_amended_read_only_clean_witness :
    (bch2_fs_read_only rwNoErrFs).state = BchFsState.ro ∧
    (rwNoErrFs.journalError = false →
      (bch2_fs_read_only rwNoErrFs).sbClean = true ∧
      (bch2_fs_read_only rwNoErrFs).sbWriteCount = rwNoErrFs.sbWriteCount + 1) ∧
    (rwNoErrFs.journalError = true →
      (bch2_fs_read_only rwNoErrFs).sbClean = rwNoErrFs.sbClean ∧
      (bch2_fs_read_only rwNoErrFs).sbWriteCount = rwNoErrFs.sbWriteCount) :=
  c6_amended_read_only_clean rwNoErrFs (Or.inr rfl) rfl

/-- Embeds bch2_fs_read_only_async (super.c): queue_work on the instance's
read_only_work item. Following queue_work semantics, a work item that is
already pending is not queued a second time; the enqueue counter counts the
teardown executions that have actually been scheduled. -/
def bch2_fs_read_only_async (c : BchFs) : BchFs :=
  if c.readOnlyWorkPending then c
  else { c with
    readOnlyWorkPending := true
    readOnlyWorkEnqueued := c.readOnlyWorkEnqueued + 1 }

/-- Embeds bch2_journal_halt: records the journal error state, after which
bch2_journal_error reports an error and no further durable writes are
accepted. -/
def bch2_journal_halt (c : BchFs) : BchFs :=
  { c with journalError := true }

/-- Embeds bch2_fs_emergency_read_only (super.c): test-and-set the
EMERGENCY_RO flag (the return value is true exactly when the bit was not
set before), schedule the asynchronous read-only teardown, and halt the
journal. -/
def bch2_fs_emergency_read_only (c : BchFs) : BchFs × Bool :=
  let ret := !c.flagEmergencyRo
  let c1 := { c with flagEmergencyRo := true }
  let c2 := bch2_fs_read_only_async c1
  let c3 := bch2_journal_halt c2
  (c3, ret)

/-- The claim C8: bch2_fs_emergency_read_only returns true exactly when the
EMERGENCY_RO flag was not already set before the call; for two successive
calls from a state with the flag clear and no teardown pending, the first
call returns true, the second returns false, and exactly one teardown is
scheduled for the pair. -/
theorem c8_emergency_read_only_first_wins (c : BchFs)
    (hflag : c.flagEmergencyRo = false)
    (hpend : c.readOnlyWorkPending = false) :
    (∀ x : BchFs, (bch2_fs_emergency_read_only x).2 = !x.flagEmergencyRo) ∧
    (bch2_fs_emergency_read_only c).2 = true ∧
    (bch2_fs_emergency_read_only
      (bch2_fs_emergency_read_only c).1).2 = false ∧
    (bch2_fs_emergency_read_only
      (bch2_fs_emergency_read_only c).1).1.readOnlyWorkEnqueued =
        c.readOnlyWorkEnqueued + 1 := by
  refine ⟨fun x => rfl, by simp [bch2_fs_emergency_read_only, hflag], ?_, ?_⟩
  · simp [bch2_fs_emergency_read_only, bch2_fs_read_only_async,
      bch2_journal_halt, hpend]
  · simp [bch2_fs_emergency_read_only, bch2_fs_read_only_async,
      bch2_journal_halt, hpend]

/-- Witness for c8_emergency_read_only_first_wins at a concrete instance. -/
theorem c8_emergency_witness :
    (∀ x : BchFs, (bch2_fs_emergency_read_only x).2 = !x.flagEmergencyRo) ∧
    (bch2_fs_emergency_read_only rwNoErrFs).2 = true ∧
    (bch2_fs_emergency_read_only
      (bch2_fs_emergency_read_only rwNoErrFs).1).2 = false ∧
    (bch2_fs_emergency_read_only
      (bch2_fs_emergency_read_only rwNoErrFs).1).1.readOnlyWorkEnqueued =
        rwNoErrFs.readOnlyWorkEnqueued + 1 :=
  c8_emergency_read_only_first_wins rwNoErrFs rfl rfl

/-- Mount options of the instance, restricted to the three option bits
involved in the forcing chain of bch2_fs_alloc (super.c). -/
structure BchOpts where
  noreplay : Bool
  nochanges : Bool
  read_only : Bool
deriving DecidableEq, Repr

/-- Embeds the option-forcing lines of bch2_fs_alloc (super.c): after the
three-way option merge, noreplay forces nochanges and nochanges forces
read_only, via two or-assignments. -/
def bch2_fs_alloc_opt_force (o : BchOpts) : BchOpts :=
  let o1 := { o with nochanges := o.nochanges || o.noreplay }
  { o1 with read_only := o1.read_only || o1.nochanges }

/-- Embeds the final transition step of __bch2_fs_start (super.c,
recovery_done): when the merged read_only option is set the startup calls
bch2_fs_read_only, otherwise it calls bch2_fs_read_write. -/
def fs_start_final_transition (c : BchFs) (opts : BchOpts) (o : StartOracle) :
    BchFs × Option String :=
  if opts.read_only then (bch2_fs_read_only c, none)
  else bch2_fs_read_write c o

/-- In bch2_fs_read_only the resulting state is either RO (the transition
ran) or the input state (one of the two early returns was taken). -/
theorem bch2_fs_read_only_state_cases (c : BchFs) :
    (bch2_fs_read_only c).state = BchFsState.ro ∨
    (bch2_fs_read_only c).state = c.state := by
  unfold bch2_fs_read_only
  split
  · exact Or.inr rfl
  · split
    · exact Or.inr rfl
    · exact Or.inl rfl

/-- The claim C10: the merged options of an instance created with noreplay
requested have nochanges and read_only set, so the startup's final
transition runs bch2_fs_read_only and the instance never reaches state RW;
with no error flagged it finishes in state RO. -/
theorem c10_noreplay_forces_read_only (opts : BchOpts) (c : BchFs)
    (o : StartOracle) (hnr : opts.noreplay = true)
    (hst : c.state = BchFsState.starting) :
    (bch2_fs_alloc_opt_force opts).nochanges = true ∧
    (bch2_fs_alloc_opt_force opts).read_only = true ∧
    (fs_start_final_transition c (bch2_fs_alloc_opt_force opts) o).1.state ≠
      BchFsState.rw ∧
    (c.flagError = false →
      (fs_start_final_transition c
        (bch2_fs_alloc_opt_force opts) o).1.state = BchFsState.ro) := by
  have hnc : (bch2_fs_alloc_opt_force opts).nochanges = true := by
    simp [bch2_fs_alloc_opt_force, hnr]
  have hro : (bch2_fs_alloc_opt_force opts).read_only = true := by
    simp [bch2_fs_alloc_opt_force, hnr]
  have htr : (fs_start_final_transition c (bch2_fs_alloc_opt_force opts) o).1 =
      bch2_fs_read_only c := by
    simp [fs_start_final_transition, hro]
  refine ⟨hnc, hro, ?_, fun herr => ?_⟩
  · rw [htr]
    rcases bch2_fs_read_only_state_cases c with h | h <;> rw [h]
    · simp
    · simp [hst]
  · rw [htr]
    have hcond : ¬(c.state ≠ BchFsState.starting ∧ c.state ≠ BchFsState.rw) := by
      simp [hst]
    simp [bch2_fs_read_only, hcond, herr]

/-- Witness for c10_noreplay_forces_read_only at a concrete starting
instance and option set. -/
theorem c10_noreplay_witness :
    (bch2_fs_alloc_opt_force
      { noreplay := true, nochanges := false, read_only := false }).nochanges = true ∧
    (bch2_fs_alloc_opt_force
      { noreplay := true, nochanges := false, read_only := false }).read_only = true ∧
    (fs_start_final_transition { roFsOneDev with state := BchFsState.starting }
      (bch2_fs_alloc_opt_force
        { noreplay := true, nochanges := false, read_only := false })
      allOkOracle).1.state ≠ BchFsState.rw ∧
    (({ roFsOneDev with state := BchFsState.starting } : BchFs).flagError = false →
      (fs_start_final_transition { roFsOneDev with state := BchFsState.starting }
        (bch2_fs_alloc_opt_force
          { noreplay := true, nochanges := false, read_only := false })
        allOkOracle).1.state = BchFsState.ro) :=
  c10_noreplay_forces_read_only
    { noreplay := true, nochanges := false, read_only := false }
    { roFsOneDev with state := BchFsState.starting } allOkOracle rfl rfl

/-- The event at position i happens strictly before the event at position j
whenever p holds at i and q holds at j. -/
def eventsBefore (t : List ROEvent) (p q : ROEvent → Bool) : Prop :=
  ∀ i j, (hi : i < t.length) → (hj : j < t.length) →
    p t[i] = true → q t[j] = true → i < j

/-- If p-events occur only in the first part of an append and q-events only
in the second part, then every p-event happens before every q-event. -/
theorem eventsBefore_append (l1 l2 : List ROEvent) (p q : ROEvent → Bool)
    (h1 : ∀ e ∈ l2, p e = false) (h2 : ∀ e ∈ l1, q e = false) :
    eventsBefore (l1 ++ l2) p q := by
  intro i j hi hj hp hq
  have hi1 : i < l1.length := by
    by_contra hc
    push_neg at hc
    have hmem : (l1 ++ l2)[i] ∈ l2 := by
      rw [List.getElem_append_right hc]
      exact List.getElem_mem _
    have hpf := h1 _ hmem
    rw [hp] at hpf
    exact Bool.noConfusion hpf
  have hj1 : l1.length ≤ j := by
    by_contra hc
    push_neg at hc
    have hmem : (l1 ++ l2)[j] ∈ l1 := by
      rw [List.getElem_append_left hc]
      exact List.getElem_mem _
    have hqf := h2 _ hmem
    rw [hq] at hqf
    exact Bool.noConfusion hqf
  omega

/-- The teardown events that must precede the journal flush: the tiering
stop, the moving-GC stops and the GC thread stop. -/
def isPreFlushStop : ROEvent → Bool
  | ROEvent.tieringStop => true
  | ROEvent.movinggcStop _ => true
  | ROEvent.gcThreadStop => true
  | _ => false

/-- The synchronous journal flush event. -/
def isJournalFlush : ROEvent → Bool
  | ROEvent.journalFlushPins => true
  | _ => false

/-- A per-device allocator stop event. -/
def isAllocatorStop : ROEvent → Bool
  | ROEvent.allocatorStop _ => true
  | _ => false

/-- The journal stop event. -/
def isJournalStopEvent : ROEvent → Bool
  | ROEvent.journalStop => true
  | _ => false

/-- A per-device allocation-pool removal event. -/
def isAllocatorRemove : ROEvent → Bool
  | ROEvent.allocatorRemove _ => true
  | _ => false

/-- The claim C4: in the __bch2_fs_read_only teardown trace, the journal
flush occurs, occurs strictly after the tiering stop, every moving-GC stop
and the GC thread stop, and strictly before every allocator stop; the
journal stop follows every allocator stop; and the per-device pool
removals, one for every member device, form the final steps (every
non-removal event precedes every removal event). -/
theorem c4_teardown_ordering (c : BchFs) :
    ROEvent.journalFlushPins ∈ (__bch2_fs_read_only c).2 ∧
    (∀ d ∈ c.devs,
      ROEvent.allocatorRemove d.devIdx ∈ (__bch2_fs_read_only c).2) ∧
    eventsBefore (__bch2_fs_read_only c).2 isPreFlushStop isJournalFlush ∧
    eventsBefore (__bch2_fs_read_only c).2 isJournalFlush isAllocatorStop ∧
    eventsBefore (__bch2_fs_read_only c).2 isAllocatorStop isJournalStopEvent ∧
    eventsBefore (__bch2_fs_read_only c).2
      (fun e => !isAllocatorRemove e) isAllocatorRemove := by
  refine ⟨?_, ?_, ?_, ?_, ?_, ?_⟩
  · simp [__bch2_fs_read_only]
  · intro d hd
    have hsplit : (__bch2_fs_read_only c).2 =
        ([ROEvent.tieringStop] ++
         (c.devs.map fun x => ROEvent.movinggcStop x.devIdx) ++
         [ROEvent.gcThreadStop] ++
         [ROEvent.journalFlushPins] ++
         (if c.journalError then [] else [ROEvent.btreeVerifyFlushed]) ++
         (c.devs.map fun x => ROEvent.allocatorStop x.devIdx) ++
         [ROEvent.journalStop]) ++
        (c.devs.map fun x => ROEvent.allocatorRemove x.devIdx) := by
      simp [__bch2_fs_read_only, List.append_assoc]
    rw [hsplit]
    exact List.mem_append_right _ (List.mem_map_of_mem _ hd)
  · have hsplit : (__bch2_fs_read_only c).2 =
        ([ROEvent.tieringStop] ++
         (c.devs.map fun d => ROEvent.movinggcStop d.devIdx) ++
         [ROEvent.gcThreadStop]) ++
        ([ROEvent.journalFlushPins] ++
         (if c.journalError then [] else [ROEvent.btreeVerifyFlushed]) ++
         (c.devs.map fun d => ROEvent.allocatorStop d.devIdx) ++
         [ROEvent.journalStop] ++
         (c.devs.map fun d => ROEvent.allocatorRemove d.devIdx)) := by
      simp [__bch2_fs_read_only, List.append_assoc]
    rw [hsplit]
    clear hsplit
    refine eventsBefore_append _ _ _ _ ?_ ?_ <;>
      intro e he <;>
      cases e <;>
      simp_all [isPreFlushStop, isJournalFlush]
  · have hsplit : (__bch2_fs_read_only c).2 =
        ([ROEvent.tieringStop] ++
         (c.devs.map fun d => ROEvent.movinggcStop d.devIdx) ++
         [ROEvent.gcThreadStop] ++
         [ROEvent.journalFlushPins] ++
         (if c.journalError then [] else [ROEvent.btreeVerifyFlushed])) ++
        ((c.devs.map fun d => ROEvent.allocatorStop d.devIdx) ++
         [ROEvent.journalStop] ++
         (c.devs.map fun d => ROEvent.allocatorRemove d.devIdx)) := by
      simp [__bch2_fs_read_only, List.append_assoc]
    rw [hsplit]
    clear hsplit
    refine eventsBefore_append _ _ _ _ ?_ ?_ <;>
      intro e he <;>
      cases e <;>
      simp_all [isJournalFlush, isAllocatorStop]
  · have hsplit : (__bch2_fs_read_only c).2 =
        ([ROEvent.tieringStop] ++
         (c.devs.map fun d => ROEvent.movinggcStop d.devIdx) ++
         [ROEvent.gcThreadStop] ++
         [ROEvent.journalFlushPins] ++
         (if c.journalError then [] else [ROEvent.btreeVerifyFlushed]) ++
         (c.devs.map fun d => ROEvent.allocatorStop d.devIdx)) ++
        ([ROEvent.journalStop] ++
         (c.devs.map fun d => ROEvent.allocatorRemove d.devIdx)) := by
      simp [__bch2_fs_read_only, List.append_assoc]
    rw [hsplit]
    clear hsplit
    refine eventsBefore_append _ _ _ _ ?_ ?_ <;>
      intro e he <;>
      cases e <;>
      simp_all [isAllocatorStop, isJournalStopEvent]
  · have hsplit : (__bch2_fs_read_only c).2 =
        ([ROEvent.tieringStop] ++
         (c.devs.map fun d => ROEvent.movinggcStop d.devIdx) ++
         [ROEvent.gcThreadStop] ++
         [ROEvent.journalFlushPins] ++
         (if c.journalError then [] else [ROEvent.btreeVerifyFlushed]) ++
         (c.devs.map fun d => ROEvent.allocatorStop d.devIdx) ++
         [ROEvent.journalStop]) ++
        (c.devs.map fun d => ROEvent.allocatorRemove d.devIdx) := by
      simp [__bch2_fs_read_only, List.append_assoc]
    rw [hsplit]
    clear hsplit
    refine eventsBefore_append _ _ _ _ ?_ ?_ <;>
      intro e he <;>
      cases e <;>
      simp_all [isAllocatorRemove]

/-- Witness for c4_teardown_ordering at a concrete instance: the flush
event is in the trace, and the flush at position 3 precedes the allocator
stop at position 5. -/
theorem c4_teardown_ordering_witness :
    ROEvent.journalFlushPins ∈ (__bch2_fs_read_only roFsOneDev).2 ∧ 3 < 5 :=
  ⟨(c4_teardown_ordering roFsOneDev).1,
   (c4_teardown_ordering roFsOneDev).2.2.2.1 3 5 (by decide) (by decide)
     (by decide) (by decide)⟩

/-- Replication options read by bch2_dev_state_allowed: the configured
metadata/data replica counts and their required floors. -/
structure ReplicaOpts where
  metadata_replicas : Nat
  metadata_replicas_required : Nat
  data_replicas : Nat
  data_replicas_required : Nat
deriving DecidableEq, Repr

/-- A member device as seen by the state-change guard: slot index and
persisted membership state. -/
structure MemberDev where
  devIdx : Nat
  state : BchMemberState
deriving DecidableEq, Repr

/-- Embeds bch2_dev_state_allowed (super.c). Target RW is always allowed.
Target RO from a membership-RW device counts the RW member devices
(including ca itself), computes required as the max of the metadata and
data replica settings (replaced by their required floors when the matching
force flag is set: C ternaries on flags and BCH_FORCE_IF_..._DEGRADED),
and returns the C comparison nr_rw - 1 <= required, carried out on Int as
in the C int arithmetic. Target FAILED/SPARE from RW/RO defers to
bch2_have_enough_devs over the remaining online devices, which lives
outside this file and is passed in as the oracle haveEnoughDevs. -/
def bch2_dev_state_allowed (opts : ReplicaOpts) (devs : List MemberDev)
    (ca : MemberDev) (new_state : BchMemberState)
    (forceMetaDegraded forceDataDegraded : Bool)
    (haveEnoughDevs : Bool) : Bool :=
  match new_state with
  | BchMemberState.rw => true
  | BchMemberState.ro =>
    if ca.state ≠ BchMemberState.rw then true
    else
      let nr_rw : Int :=
        ((devs.filter fun d => d.state = BchMemberState.rw).length : Int)
      let required : Int :=
        max (if forceMetaDegraded then (opts.metadata_replicas_required : Int)
             else (opts.metadata_replicas : Int))
            (if forceDataDegraded then (opts.data_replicas_required : Int)
             else (opts.data_replicas : Int))
      decide (nr_rw - 1 ≤ required)
  | BchMemberState.failed =>
    if ca.state ≠ BchMemberState.rw ∧ ca.state ≠ BchMemberState.ro then true
    else haveEnoughDevs
  | BchMemberState.spare =>
    if ca.state ≠ BchMemberState.rw ∧ ca.state ≠ BchMemberState.ro then true
    else haveEnoughDevs

/-- Options with two replicas configured for metadata and data, required
floors of one. -/
def c1ReplicaOpts : ReplicaOpts :=
  { metadata_replicas := 2
    metadata_replicas_required := 1
    data_replicas := 2
    data_replicas_required := 1 }

/-- Exactly two member devices, both membership-RW. -/
def c1TwoRwDevs : List MemberDev :=
  [{ devIdx := 0, state := BchMemberState.rw },
   { devIdx := 1, state := BchMemberState.rw }]

/-- Four member devices, all membership-RW. -/
def c1FourRwDevs : List MemberDev :=
  [{ devIdx := 0, state := BchMemberState.rw },
   { devIdx := 1, state := BchMemberState.rw },
   { devIdx := 2, state := BchMemberState.rw },
   { devIdx := 3, state := BchMemberState.rw }]

/-- Evaluation of the guard at the claim C1's failing input, exhibiting the
reversed comparison in the code: with replicas configured at 2 and exactly
2 RW devices, setting one RO leaves only 1 other RW device - strictly below
the configured minimum - yet bch2_dev_state_allowed returns true (permits);
and with 4 RW devices, where the claim requires acceptance, the same call
returns false (rejects), because the code tests nr_rw - 1 <= required where
its own intent (the comment: do we have enough devices to write to?)
demands nr_rw - 1 >= required. -/
theorem c1_state_allowed_evaluation :
    (c1TwoRwDevs.filter fun d => d.state = BchMemberState.rw).length = 2 ∧
    ((1 : Int) < 2) ∧
    bch2_dev_state_allowed c1ReplicaOpts c1TwoRwDevs
      { devIdx := 0, state := BchMemberState.rw }
      BchMemberState.ro false false false = true ∧
    bch2_dev_state_allowed c1ReplicaOpts c1FourRwDevs
      { devIdx := 0, state := BchMemberState.rw }
      BchMemberState.ro false false false = false := by
  refine ⟨rfl, by norm_num, ?_, ?_⟩ <;> decide

/-- A live filesystem instance as seen by the process-wide registry
(bch_fs_list): an allocation identity (distinguishing distinct struct
bch_fs allocations) and the superblock UUID. -/
structure RegFs where
  instId : Nat
  uuid : Nat
deriving DecidableEq, Repr

/-- Embeds __bch2_uuid_to_fs (super.c): walk the live list and return the
first instance whose superblock UUID matches. -/
def __bch2_uuid_to_fs (reg : List RegFs) (u : Nat) : Option RegFs :=
  reg.find? fun c => c.uuid == u

/-- Outcomes of the external calls made by __bch2_fs_online: character
device creation, sysfs object creation and per-device sysfs onlining. -/
structure OnlineOracle where
  chardevOk : Bool
  sysfsOk : Bool
  devSysfsOk : Bool

/-- Embeds __bch2_fs_online (super.c): a no-op success when the instance is
already on the live list; an error without registration when another live
instance has the same UUID, or when chardev/sysfs setup fails; otherwise
the instance is added to the live list. -/
def __bch2_fs_online (reg : List RegFs) (c : RegFs) (o : OnlineOracle) :
    List RegFs × Option String :=
  if reg.any fun x => x.instId == c.instId then (reg, none)
  else if (__bch2_uuid_to_fs reg c.uuid).isSome then
    (reg, some "filesystem UUID already open")
  else if o.chardevOk = false then
    (reg, some "error creating character device")
  else if o.sysfsOk = false then
    (reg, some "error creating sysfs objects")
  else if o.devSysfsOk = false then
    (reg, some "error creating sysfs objects")
  else (c :: reg, none)

/-- Outcomes of the external calls made by __bch2_fs_open_incremental:
superblock validation, membership check of the device against the found
instance, instance allocation, device onlining, whether the start sequence
is attempted (nostart option and bch2_fs_may_start combined) and whether it
succeeds. -/
structure IncOracle where
  validateOk : Bool
  devInFsOk : Bool
  allocOk : Bool
  devOnlineOk : Bool
  mayStart : Bool
  startOk : Bool
  onlineOracle : OnlineOracle

/-- Result of __bch2_fs_open_incremental: the registry afterwards, the
error string, whether a fresh instance was allocated (allocated_fs in the
C code), and the identity of the instance the device was attached to. -/
structure IncResult where
  reg : List RegFs
  err : Option String
  allocatedFs : Bool
  usedInst : Option Nat
deriving DecidableEq, Repr

/-- Embeds __bch2_fs_open_incremental (super.c): validate the superblock;
look the UUID up in the live list; when an instance is found, check device
membership and attach the device to it (allocated_fs stays false),
otherwise allocate a fresh instance for the UUID; online the device, start
the filesystem when allowed, and publish through __bch2_fs_online. On any
error the registry is left unchanged (a freshly allocated instance is torn
down again before it was ever published). -/
def __bch2_fs_open_incremental (reg : List RegFs) (sbUuid : Nat)
    (freshId : Nat) (o : IncOracle) : IncResult :=
  if o.validateOk = false then
    { reg := reg, err := some "superblock validation error",
      allocatedFs := false, usedInst := none }
  else
    match __bch2_uuid_to_fs reg sbUuid with
    | some c =>
      if o.devInFsOk = false then
        { reg := reg, err := some "device not a member of filesystem",
          allocatedFs := false, usedInst := some c.instId }
      else if o.devOnlineOk = false then
        { reg := reg, err := some "bch2_dev_online() error",
          allocatedFs := false, usedInst := some c.instId }
      else if o.mayStart && !o.startOk then
        { reg := reg, err := some "error starting filesystem",
          allocatedFs := false, usedInst := some c.instId }
      else
        let r := __bch2_fs_online reg c o.onlineOracle
        { reg := r.1, err := r.2, allocatedFs := false,
          usedInst := some c.instId }
    | none =>
      if o.allocOk = false then
        { reg := reg, err := some "cannot allocate memory",
          allocatedFs := false, usedInst := none }
      else
        let c : RegFs := { instId := freshId, uuid := sbUuid }
        if o.devOnlineOk = false then
          { reg := reg, err := some "bch2_dev_online() error",
            allocatedFs := true, usedInst := some freshId }
        else if o.mayStart && !o.startOk then
          { reg := reg, err := some "error starting filesystem",
            allocatedFs := true, usedInst := some freshId }
        else
          let r := __bch2_fs_online reg c o.onlineOracle
          { reg := r.1, err := r.2, allocatedFs := true,
            usedInst := some freshId }

/-- The claim C5: (1) publishing an instance that is not yet on the live
list while another live instance holds the same UUID fails with the error
"filesystem UUID already open" and leaves the registry unchanged; (2)
__bch2_fs_online preserves UUID-uniqueness of the live list, so there is
at most one live instance per UUID at any time; (3) the incremental open
path never allocates a second instance for a UUID that already has a live
one: it leaves the registry unchanged, reports allocated_fs = false, and on
success attaches the device to the existing instance. -/
theorem c5_registry_unique_uuid :
    (∀ (reg : List RegFs) (c : RegFs) (o : OnlineOracle),
      (∀ x ∈ reg, x.instId ≠ c.instId) →
      (∃ x ∈ reg, x.uuid = c.uuid) →
      __bch2_fs_online reg c o = (reg, some "filesystem UUID already open")) ∧
    (∀ (reg : List RegFs) (c : RegFs) (o : OnlineOracle),
      ((reg.map RegFs.uuid).Nodup) →
      (((__bch2_fs_online reg c o).1.map RegFs.uuid).Nodup)) ∧
    (∀ (reg : List RegFs) (u fid : Nat) (o : IncOracle) (c0 : RegFs),
      __bch2_uuid_to_fs reg u = some c0 →
      (__bch2_fs_open_incremental reg u fid o).allocatedFs = false ∧
      (__bch2_fs_open_incremental reg u fid o).reg = reg ∧
      ((__bch2_fs_open_incremental reg u fid o).err = none →
        (__bch2_fs_open_incremental reg u fid o).usedInst = some c0.instId)) := by
  refine ⟨?_, ?_, ?_⟩
  · intro reg c o hinst huuid
    have h1 : (reg.any fun x => x.instId == c.instId) = false := by
      rw [List.any_eq_false]
      intro x hx
      simpa using hinst x hx
    have h2 : (__bch2_uuid_to_fs reg c.uuid).isSome = true := by
      obtain ⟨x, hx, hux⟩ := huuid
      rw [__bch2_uuid_to_fs, List.find?_isSome]
      exact ⟨x, hx, by simpa using hux⟩
    simp [__bch2_fs_online, h1, h2]
  · intro reg c o hnd
    unfold __bch2_fs_online
    split
    · exact hnd
    · split
      · exact hnd
      · rename_i hdup
        split
        · exact hnd
        · split
          · exact hnd
          · split
            · exact hnd
            · have hnotin : ∀ x ∈ reg, x.uuid ≠ c.uuid := by
                intro x hx hux
                apply hdup
                rw [__bch2_uuid_to_fs, List.find?_isSome]
                exact ⟨x, hx, by simpa using hux⟩
              simpa [List.nodup_cons] using ⟨hnotin, hnd⟩
  · intro reg u fid o c0 hfind
    have hmem : c0 ∈ reg := List.mem_of_find?_eq_some hfind
    have hany : (reg.any fun x => x.instId == c0.instId) = true := by
      rw [List.any_eq_true]
      exact ⟨c0, hmem, by simp⟩
    have honline : __bch2_fs_online reg c0 o.onlineOracle = (reg, none) := by
      simp [__bch2_fs_online, hany]
    simp only [__bch2_fs_open_incremental, hfind, honline]
    split
    · exact ⟨rfl, rfl, fun hcontra => Option.noConfusion hcontra⟩
    · split
      · exact ⟨rfl, rfl, fun hcontra => Option.noConfusion hcontra⟩
      · split
        · exact ⟨rfl, rfl, fun hcontra => Option.noConfusion hcontra⟩
        · split
          · exact ⟨rfl, rfl, fun hcontra => Option.noConfusion hcontra⟩
          · exact ⟨rfl, rfl, fun _ => rfl⟩

/-- A registry holding one live instance with UUID 42. -/
def regOne : List RegFs := [{ instId := 1, uuid := 42 }]

/-- A second, distinct instance claiming the same UUID 42. -/
def dupFs : RegFs := { instId := 2, uuid := 42 }

/-- Online oracle in which every external call succeeds. -/
def onlineOkOracle : OnlineOracle :=
  { chardevOk := true, sysfsOk := true, devSysfsOk := true }

/-- Incremental-open oracle in which every external call succeeds. -/
def incOkOracle : IncOracle :=
  { validateOk := true
    devInFsOk := true
    allocOk := true
    devOnlineOk := true
    mayStart := true
    startOk := true
    onlineOracle := onlineOkOracle }

/-- Witness for c5_registry_unique_uuid at concrete registries: the
duplicate publish is rejected without mutation, uniqueness is preserved,
and the incremental open of UUID 42 attaches to the existing instance 1. -/
theorem c5_registry_unique_uuid_witness :
    __bch2_fs_online regOne dupFs onlineOkOracle =
      (regOne, some "filesystem UUID already open") ∧
    (((__bch2_fs_online regOne dupFs onlineOkOracle).1.map RegFs.uuid).Nodup) ∧
    (__bch2_fs_open_incremental regOne 42 7 incOkOracle).allocatedFs = false ∧
    (__bch2_fs_open_incremental regOne 42 7 incOkOracle).reg = regOne ∧
    ((__bch2_fs_open_incremental regOne 42 7 incOkOracle).err = none →
      (__bch2_fs_open_incremental regOne 42 7 incOkOracle).usedInst = some 1) :=
  ⟨c5_registry_unique_uuid.1 regOne dupFs onlineOkOracle
     (by decide) (by decide),
   c5_registry_unique_uuid.2.1 regOne dupFs onlineOkOracle (by decide),
   (c5_registry_unique_uuid.2.2 regOne 42 7 incOkOracle
     { instId := 1, uuid := 42 } (by decide)).1,
   (c5_registry_unique_uuid.2.2 regOne 42 7 incOkOracle
     { instId := 1, uuid := 42 } (by decide)).2.1,
   (c5_registry_unique_uuid.2.2 regOne 42 7 incOkOracle
     { instId := 1, uuid := 42 } (by decide)).2.2⟩
